import Mathlib

/-
  Verification development for the ResearchAssistant repository
  (src/ResearchAssistant/app.py).

  Shallow embedding conventions:
  * Python strings are Lean `String`s; Python character slicing `s[0:n]` is
    `pySlice s n` (both slice by code points).
  * Effectful library calls (wikipedia, duckduckgo_search, requests, eval)
    are explicit capability parameters returning `Except E α`; `.error e`
    models the call raising a Python exception `e` (its payload is the
    message produced by `str(e)`, or a structured exception value for the
    wikipedia library).
  * A Python `try:`/`except:` block is embedded as a `match` on the
    `Except`-valued body with one arm per handler.
-/

namespace ResearchAssistant

/-- Python character slice `s[0:n]`: the first `n` code points of `s`. -/
def pySlice (s : String) (n : Nat) : String :=
  ⟨s.data.take n⟩

/-- Characters removed from both ends by the Python call `query.strip(chars)`
with `chars` the two quote characters. -/
def quoteChars : List Char := ['"', '\x27']

/-- Python `query.strip(chars)` for the quote-character set: drop the maximal
run of quote characters from both ends of the string. -/
def pyStripQuotes (s : String) : String :=
  ⟨((s.data.dropWhile (fun c => quoteChars.contains c)).reverse.dropWhile
      (fun c => quoteChars.contains c)).reverse⟩

/-- The query preprocessing shared by `safe_wikipedia_search` and
`safe_duckduckgo_search`: `query.strip(quotes).replace(plus, space)`. -/
def normalizeQuery (s : String) : String :=
  (pyStripQuotes s).replace "+" " "

/-! ## BasicMath tool: `safe_math_eval` -/

/-- The character whitelist `set("0123456789+-*/(). ")` of `safe_math_eval`. -/
def allowed_chars : List Char := "0123456789+-*/(). ".data

/-- The guard `all(c in allowed_chars for c in expression)` of `safe_math_eval`. -/
def allWhitelisted (expression : String) : Bool :=
  expression.data.all (fun c => allowed_chars.contains c)

/-- Shallow embedding of `safe_math_eval` (app.py lines 66-75). The composite
`str(eval(expression))` is the capability parameter `evalFn`; `.error m`
models it raising an exception whose `str` is `m`. The whitelist test cannot
raise, so the `except` handler only ever receives failures of `evalFn`. -/
def safe_math_eval (evalFn : String → Except String String)
    (expression : String) : String :=
  if allWhitelisted expression then
    match evalFn expression with
    | .ok v => v
    | .error m => "Error evaluating mathematical expression: " ++ m
  else
    "Invalid mathematical expression. Only basic operations are allowed."

/-! ### A concrete model of Python `eval` on whitelisted integer arithmetic -/

/-- Tokens of a whitelisted arithmetic expression. -/
inductive MathTok
  | num (n : Nat)
  | plus
  | minus
  | star
  | slash
  | lparen
  | rparen
deriving DecidableEq, Repr

/-- Tokenizer for whitelisted arithmetic text: digits accumulate into a
numeral (`cur`), operators and parentheses become single tokens, spaces are
skipped. A float literal marker or a foreign character yields an error. -/
def mathLex : List Char → Option Nat → List MathTok → Except String (List MathTok)
  | [], none, acc => .ok acc.reverse
  | [], some n, acc => .ok (MathTok.num n :: acc).reverse
  | c :: cs, cur, acc =>
    if c.isDigit then
      mathLex cs (some ((cur.getD 0) * 10 + (c.toNat - 48))) acc
    else
      let acc1 := match cur with
        | some n => MathTok.num n :: acc
        | none => acc
      if c = ' ' then mathLex cs none acc1
      else if c = '+' then mathLex cs none (.plus :: acc1)
      else if c = '-' then mathLex cs none (.minus :: acc1)
      else if c = '*' then mathLex cs none (.star :: acc1)
      else if c = '/' then mathLex cs none (.slash :: acc1)
      else if c = '(' then mathLex cs none (.lparen :: acc1)
      else if c = ')' then mathLex cs none (.rparen :: acc1)
      else if c = '.' then .error "float literals are outside this model"
      else .error "invalid character"

mutual

/-- Additive level of the arithmetic grammar: `term ((+|-) term)*`. -/
def parseMathExpr : Nat → List MathTok → Except String (Int × List MathTok)
  | 0, _ => .error "expression too deeply nested for the model"
  | fuel + 1, ts => do
    let (v, ts1) ← parseMathTerm fuel ts
    parseMathExprTail fuel v ts1

/-- Left-associated fold of the additive tail. -/
def parseMathExprTail : Nat → Int → List MathTok → Except String (Int × List MathTok)
  | 0, _, _ => .error "expression too deeply nested for the model"
  | fuel + 1, v, ts =>
    match ts with
    | .plus :: ts1 => do
        let (w, ts2) ← parseMathTerm fuel ts1
        parseMathExprTail fuel (v + w) ts2
    | .minus :: ts1 => do
        let (w, ts2) ← parseMathTerm fuel ts1
        parseMathExprTail fuel (v - w) ts2
    | _ => .ok (v, ts)

/-- Multiplicative level: `factor ((*|/) factor)*`; Python true division
always produces a float, which this integer model reports as an error. -/
def parseMathTerm : Nat → List MathTok → Except String (Int × List MathTok)
  | 0, _ => .error "expression too deeply nested for the model"
  | fuel + 1, ts => do
    let (v, ts1) ← parseMathFactor fuel ts
    parseMathTermTail fuel v ts1

/-- Left-associated fold of the multiplicative tail. -/
def parseMathTermTail : Nat → Int → List MathTok → Except String (Int × List MathTok)
  | 0, _, _ => .error "expression too deeply nested for the model"
  | fuel + 1, v, ts =>
    match ts with
    | .star :: ts1 => do
        let (w, ts2) ← parseMathFactor fuel ts1
        parseMathTermTail fuel (v * w) ts2
    | .slash :: _ => .error "true division (float semantics) is outside this model"
    | _ => .ok (v, ts)

/-- Unary level: any run of unary `+`/`-` signs before an atom. -/
def parseMathFactor : Nat → List MathTok → Except String (Int × List MathTok)
  | 0, _ => .error "expression too deeply nested for the model"
  | fuel + 1, ts =>
    match ts with
    | .minus :: ts1 => do
        let (v, r) ← parseMathFactor fuel ts1
        .ok (-v, r)
    | .plus :: ts1 => parseMathFactor fuel ts1
    | _ => parseMathAtom fuel ts

/-- Atoms: a numeral or a parenthesised expression. -/
def parseMathAtom : Nat → List MathTok → Except String (Int × List MathTok)
  | 0, _ => .error "expression too deeply nested for the model"
  | fuel + 1, ts =>
    match ts with
    | .num n :: ts1 => .ok ((n : Int), ts1)
    | .lparen :: ts1 => do
        let (v, r) ← parseMathExpr fuel ts1
        match r with
        | .rparen :: r1 => .ok (v, r1)
        | _ => .error "invalid syntax"
    | _ => .error "invalid syntax"

end

/-- Modelled from the spec: the Python builtin `str(eval(expression))` used by
`safe_math_eval`, which is not part of this repository. The model covers
whitelisted integer arithmetic (integer literals, `+`, `-`, `*`, parentheses,
unary signs, spaces) with Python operator precedence and left associativity;
float literals and true division (which produce Python floats) are returned
as errors instead of being given float semantics. -/
def pyIntEval (expression : String) : Except String String := do
  let ts ← mathLex expression.data none []
  let (v, rest) ← parseMathExpr (4 * ts.length + 8) ts
  match rest with
  | [] => .ok (toString v)
  | _ => .error "invalid syntax"

/-! ## Wikipedia tool: `safe_wikipedia_search` -/

/-- Result of `wikipedia.page(...)`: the only attribute the code reads is
`summary`. -/
structure WikiPage where
  summary : String
deriving Repr

/-- Exceptions the wikipedia library can raise, as handled by the code:
`DisambiguationError` (carrying its `options` list), `PageError`, and any
other exception (carrying its `str`). -/
inductive WikiExc
  | disambiguation (options : List String)
  | pageError
  | other (msg : String)
deriving Repr

/-- Capabilities of the wikipedia library used by `safe_wikipedia_search`:
`wikipedia.search(query, results=1)` and
`wikipedia.page(title, auto_suggest=False)`. -/
structure WikiEnv where
  search : String → Except WikiExc (List String)
  page : String → Except WikiExc WikiPage

/-- Body of the outer `try:` of `safe_wikipedia_search` (app.py lines 24-32),
after the query has been normalized: search, report when no article was
found, otherwise fetch the first hit and return `page.summary[0:500]`;
exceptions of either library call propagate to the handlers. -/
def wikiTryBody (env : WikiEnv) (query : String) : Except WikiExc String :=
  match env.search query with
  | .error e => .error e
  | .ok [] => .ok ("No Wikipedia articles found for \x27" ++ query ++ "\x27")
  | .ok (page_title :: _) =>
      match env.page page_title with
      | .error e => .error e
      | .ok page => .ok (pySlice page.summary 500)

/-- Shallow embedding of `safe_wikipedia_search` (app.py lines 22-43). The
`DisambiguationError` handler retries `wikipedia.page` on the first option
inside an inner `try:` whose bare `except:` also catches the `IndexError`
raised by `e.options[0]` when the options list is empty. -/
def safe_wikipedia_search (env : WikiEnv) (query0 : String) : String :=
  let query := normalizeQuery query0
  match wikiTryBody env query with
  | .ok s => s
  | .error (.disambiguation options) =>
      match options with
      | [] =>
          "Multiple Wikipedia articles found for \x27" ++ query ++
            "\x27. Please be more specific."
      | o :: _ =>
          match env.page o with
          | .ok page => pySlice page.summary 500
          | .error _ =>
              "Multiple Wikipedia articles found for \x27" ++ query ++
                "\x27. Please be more specific."
  | .error .pageError => "No Wikipedia article found for \x27" ++ query ++ "\x27"
  | .error (.other m) => "An error occurred while searching Wikipedia: " ++ m

/-! ## DuckDuckGo tool: `safe_duckduckgo_search` -/

/-- One result dictionary from `ddgs.text(...)`: the code reads the keys
`title` (direct indexing, `KeyError` when absent), `body` (guarded by
`in`), and `link` (via `.get` with a default). -/
structure DDGResult where
  title : Option String
  body : Option String
  link : Option String

/-- Capability of the duckduckgo_search library:
`list(ddgs.text(query, max_results=3))`; `.error m` models the context
manager or the search raising an exception with `str` equal to `m`. -/
structure DDGEnv where
  textSearch : String → Except String (List DDGResult)

/-- Formatting of one result inside the loop of `safe_duckduckgo_search`
(app.py lines 57-60). Indexing a missing `title` key raises
`KeyError`, whose `str` is the quoted key name. -/
def ddgFormat (r : DDGResult) : Except String String :=
  let link := r.link.getD "No link available"
  let body := match r.body with
    | some b => pySlice b 200 ++ "..."
    | none => ""
  match r.title with
  | some t => .ok ("- " ++ t ++ "\n  " ++ body ++ "\n  Source: " ++ link)
  | none => .error "\x27title\x27"

/-- Body of the `try:` of `safe_duckduckgo_search` (app.py lines 47-62),
after query normalization. -/
def ddgTryBody (env : DDGEnv) (query : String) : Except String String := do
  let results ← env.textSearch query
  match results with
  | [] => pure "No results found on DuckDuckGo."
  | _ => do
      let formatted_results ← results.mapM ddgFormat
      pure (String.intercalate "\n\n" formatted_results)

/-- Shallow embedding of `safe_duckduckgo_search` (app.py lines 45-64). -/
def safe_duckduckgo_search (env : DDGEnv) (query0 : String) : String :=
  let query := normalizeQuery query0
  match ddgTryBody env query with
  | .ok s => s
  | .error m => "An error occurred while searching DuckDuckGo: " ++ m

/-! ## ArXiv tool: `search_arxiv` -/

/-- One Atom `entry` element: the text of the `title`, `summary` and `id`
children as read by the code. `none` models `entry.find(...)` returning
`None`, so that reading `.text` raises `AttributeError`. -/
structure ArxivEntry where
  title : Option String
  summary : Option String
  id : Option String

/-- Python attribute access `element.text` when `element` may be `None`:
on `None` it raises `AttributeError` with the message below. -/
def elemText : Option String → Except String String
  | some t => .ok t
  | none => .error "\x27NoneType\x27 object does not have the attribute \x27text\x27"

/-- Capability summarizing `requests.get`, `raise_for_status` and
`ET.fromstring` for the arXiv query URL built from `query`: on success the
list of parsed `entry` elements, on `.error m` any of those steps raising an
exception with `str` equal to `m`. -/
structure ArxivEnv where
  fetchEntries : String → Except String (List ArxivEntry)

/-- Body of the `try:` of `search_arxiv` (app.py lines 81-94). -/
def arxivTryBody (env : ArxivEnv) (query : String) : Except String String := do
  let entries ← env.fetchEntries query
  let results ← entries.mapM (fun entry => do
    let title ← elemText entry.title
    let summary ← elemText entry.summary
    let link ← elemText entry.id
    pure ("Title: " ++ title ++ "\nLink: " ++ link ++ "\nSummary: " ++
      pySlice summary 200 ++ "...\n"))
  match results with
  | [] => pure "No results found on arXiv."
  | _ => pure (String.intercalate "\n" results)

/-- Shallow embedding of `search_arxiv` (app.py lines 77-96): the empty-query
guard runs before the `try:`, so no capability is consulted for an empty
query. -/
def search_arxiv (env : ArxivEnv) (query : String) : String :=
  if query = "" then "No query provided."
  else
    match arxivTryBody env query with
    | .ok s => s
    | .error m => "Error searching ArXiv: " ++ m

/-! ## PubMed tool: `search_pubmed` -/

/-- One paper record from the esummary response: the code reads `title` and
`abstract` via `.get` with defaults. -/
structure PubPaper where
  title : Option String
  abstract : Option String

/-- Capabilities of the two `requests.get` calls of `search_pubmed`: the
esearch request yielding `data.get(esearchresult, {}).get(idlist, [])`, and
the esummary request yielding the `result` mapping indexed by id (`none`
models a missing key, raising `KeyError`). `.error m` models the request,
`raise_for_status` or `.json()` raising an exception with `str` `m`. -/
structure PubMedEnv where
  esearchIdlist : String → Except String (List String)
  esummaryResult : String → Except String (String → Option PubPaper)

/-- Body of the `try:` of `search_pubmed` (app.py lines 102-126). -/
def pubmedTryBody (env : PubMedEnv) (query : String) : Except String String := do
  let ids ← env.esearchIdlist query
  match ids with
  | [] => pure "No results found on PubMed."
  | _ => do
      let ids_string := String.intercalate "," ids
      let result ← env.esummaryResult ids_string
      let results ← ids.mapM (fun id => do
        match result id with
        | none => Except.error ("\x27" ++ id ++ "\x27")
        | some paper => do
            let title := paper.title.getD "No title available"
            let abstract := paper.abstract.getD "No abstract available"
            pure ("Title: " ++ title ++ "\nPubMed ID: " ++ id ++ "\nAbstract: " ++
              pySlice abstract 200 ++ "...\n"))
      pure (String.intercalate "\n" results)

/-- Shallow embedding of `search_pubmed` (app.py lines 98-128): the
empty-query guard runs before the `try:`. -/
def search_pubmed (env : PubMedEnv) (query : String) : String :=
  if query = "" then "No query provided."
  else
    match pubmedTryBody env query with
    | .ok s => s
    | .error m => "Error searching PubMed: " ++ m

/-! ## Tool registry and prompt template -/

/-- One registry entry (app.py lines 131-157): the `name` and `description`
of a `Tool`; its callable is one of the five functions embedded above. -/
structure Tool where
  name : String
  description : String

/-- The registry `tools` (app.py lines 131-157). -/
def tools : List Tool :=
  [⟨"Wikipedia",
    "Get detailed explanations and summaries from Wikipedia. who, what, when, where, why, how, story."⟩,
   ⟨"DuckDuckGo",
    "Search the web for current information. Input: search query. who, what, when, where, why, how."⟩,
   ⟨"BasicMath",
    "Performs basic mathematical calculations. Input: mathematical expression using +, -, *, /, ()."⟩,
   ⟨"ArXiv",
    "Searches arXiv for scientific papers. research paper topic or keywords."⟩,
   ⟨"PubMed",
    "Searches PubMed for medical research. research paper on medical topic or keywords."⟩]

/-- The catalogue string `tool_descriptions` (app.py line 159). -/
def tool_descriptions : String :=
  String.intercalate "\n" (tools.map (fun tool => tool.name ++ ": " ++ tool.description))

/-- The line of `CUSTOM_PROMPT` naming the allowed Action values. -/
def actionLine : String :=
  "Action: use EXACTLY one of these tools: Wikipedia, DuckDuckGo, BasicMath, ArXiv, or PubMed"

/-- The fixed prompt template `CUSTOM_PROMPT` (app.py lines 161-198),
transcribed byte for byte as a concatenation of literal chunks (string
concatenation is how the Python f-string builds it; the chunk boundaries
are immaterial to the resulting string). The doubled braces of the f-string
around `input` denote literal braces, written here as hex escapes. -/
def CUSTOM_PROMPT : String :=
  "You are a helpful research assistant that finds information using the available tools. Follow these guidelines strictly:\n\nAvailable tools:\n\n"
  ++ (tool_descriptions
  ++ ("\n\nInstructions:\n. Details from Internal Knowledge: Related information you already know\n. Add line breaks between sections\n. Use the exact tool name from the list above\n. Keep queries simple and clear\n. Use tools according to the type of information needed\n. In case of research paper only use ArXiv and Pubmed\n. Summarize information from multiple sources when relevant\n. Stop as soon as you have a clear answer with reference links\n\nUse this exact format:\n\n"
  ++ ("Question:" ++ (" the input question you must answer\n"
  ++ ("Thought:" ++ (" analyze the question and decide which tool to use\n"
  ++ (actionLine ++ ("\n"
  ++ ("Action Input:" ++ (" just the plain search query or math expression\n"
  ++ ("Observation:" ++ (" the result of the action\n"
  ++ ("... (this Thought/Action/Action Input/Observation can repeat up to 3 times if needed)\nThought: I now know the final answer\n"
  ++ ("Final Answer:" ++ " provide a complete answer based on the information gathered with link (Details from Web Search: \n- First result title and brief description\n- Second result title and brief description\n\nReferences:\n[1] link1\n[2] link2\n[etc])\n\nBegin!\n\nQuestion: \x7binput\x7d\nThought:"))))))))))))))

/-- Substring containment, used to state facts about `CUSTOM_PROMPT`. -/
def ContainsSub (s sub : String) : Prop :=
  ∃ a b, s = a ++ (sub ++ b)

/-! ## HTTP boundary: the `/search` endpoint -/

/-- JSON body produced by the `/search` handler: either
`jsonify(result=...)` or `jsonify(error=...)`. -/
inductive SearchBody
  | result (text : String)
  | error (msg : String)
deriving DecidableEq

/-- Shallow embedding of the `/search` handler (app.py lines 219-229), as a
body-status pair. `getQuery` models `request.json.get(query)` (its `.error`
arm a raised exception, its `none` arm a missing key); `runAgent` models
`agent.run`, with `.error m` a raised exception whose `str` is `m`. The
whole handler body sits inside one `try:` whose handler returns
`jsonify(error=str(e)), 500`. -/
def search (getQuery : Except String (Option String))
    (runAgent : String → Except String String) : SearchBody × Nat :=
  match getQuery with
  | .error m => (.error m, 500)
  | .ok user_input =>
      match user_input with
      | none => (.error "No query provided", 400)
      | some q =>
          if q = "" then (.error "No query provided", 400)
          else
            match runAgent q with
            | .ok result => (.result result, 200)
            | .error m => (.error m, 500)

/-! ## Agent loop

The loop itself lives in the third-party agent framework the app configures
(app.py lines 201-213 only pass `max_iterations = 3` and
`early_stopping_method = generate`); its state machine is modelled from the
spec below. -/

/-- Outcome of parsing one raw model completion (spec section 4.1). -/
inductive Parsed
  | finalAnswer (text : String)
  | action (tool_name tool_input : String)
  | parseError (raw : String)

/-- Terminal statuses of a run (spec section 4.3). -/
inductive RunStatus
  | Succeeded
  | Stopped
  | Failed
deriving DecidableEq

/-- Result of a run, instrumented with the number of Model calls made. -/
structure RunResult where
  status : RunStatus
  text : String
  modelCalls : Nat
deriving DecidableEq

/-- Capabilities consumed by the loop: the Model (prompt in, completion out,
`.error ()` meaning ModelUnavailable), the parser, and the non-raising tool
registry dispatch (spec sections 4.1, 4.2, 6). -/
structure LoopEnv where
  complete : List String → Except Unit String
  parse : String → Parsed
  invoke : String → String → String

/-- Modelled from the spec: one iteration step plus the `generate`
early-stopping call of `AgentLoop.run` (spec section 4.3), the loop of the
third-party agent framework that app.py configures but does not contain.
`remaining` is the iteration budget left, `calls` the Model calls made so
far; the budget-exhausted branch makes the single forced final-answer call. -/
def AgentLoop.runAux (env : LoopEnv) (transcript : List String) :
    Nat → Nat → RunResult
  | 0, calls =>
      match env.complete (transcript ++ ["Final Answer:"]) with
      | .error _ => ⟨.Failed, "ModelUnavailable", calls + 1⟩
      | .ok completion =>
          match env.parse completion with
          | .finalAnswer t => ⟨.Stopped, t, calls + 1⟩
          | _ => ⟨.Stopped, completion, calls + 1⟩
  | remaining + 1, calls =>
      match env.complete transcript with
      | .error _ => ⟨.Failed, "ModelUnavailable", calls + 1⟩
      | .ok completion =>
          match env.parse completion with
          | .finalAnswer t => ⟨.Succeeded, t, calls + 1⟩
          | .action tool_name tool_input =>
              AgentLoop.runAux env
                (transcript ++ ["Action: " ++ tool_name,
                  "Action Input: " ++ tool_input,
                  "Observation: " ++ env.invoke tool_name tool_input])
                remaining (calls + 1)
          | .parseError _ =>
              AgentLoop.runAux env
                (transcript ++
                  ["Observation: your output was malformed; retry with the exact format"])
                remaining (calls + 1)

/-- The iteration budget configured by `initialize_agent` (app.py line 208). -/
def max_iterations : Nat := 3

/-- Modelled from the spec: `AgentLoop.run` (spec sections 4.3 and 6), with
the configured budget and the prompt built from `CUSTOM_PROMPT` and the
question. Totality of this definition is the loop's termination. -/
def AgentLoop.run (env : LoopEnv) (question : String) : RunResult :=
  AgentLoop.runAux env [CUSTOM_PROMPT.replace "\x7binput\x7d" question]
    max_iterations 0

/-! ## Outcome predicates for the never-raises contract -/

/-- Possible outputs of the handlers of `safe_wikipedia_search` for a failing
body: one of its three fixed handler messages, an error message carrying the
exception text, or (when a `DisambiguationError` is recovered via its first
option) a truncated page summary. -/
def wikiDescriptive (query out : String) : Prop :=
  out = "Multiple Wikipedia articles found for \x27" ++ query ++
      "\x27. Please be more specific." ∨
  out = "No Wikipedia article found for \x27" ++ query ++ "\x27" ∨
  (∃ m, out = "An error occurred while searching Wikipedia: " ++ m) ∨
  (∃ s, out = pySlice s 500)

/-- The never-raises contract for `safe_wikipedia_search`: its output is a
string which is either the successful body result or a handler output. -/
def wikiNeverRaises (env : WikiEnv) (q : String) : Prop :=
  (∃ s, wikiTryBody env (normalizeQuery q) = .ok s ∧
    safe_wikipedia_search env q = s) ∨
  wikiDescriptive (normalizeQuery q) (safe_wikipedia_search env q)

/-- The never-raises contract for `safe_duckduckgo_search`. -/
def ddgNeverRaises (env : DDGEnv) (q : String) : Prop :=
  (∃ s, ddgTryBody env (normalizeQuery q) = .ok s ∧
    safe_duckduckgo_search env q = s) ∨
  (∃ m, ddgTryBody env (normalizeQuery q) = .error m ∧
    safe_duckduckgo_search env q =
      "An error occurred while searching DuckDuckGo: " ++ m)

/-- The never-raises contract for `safe_math_eval`. -/
def mathNeverRaises (evalFn : String → Except String String)
    (expression : String) : Prop :=
  (allWhitelisted expression = false ∧
    safe_math_eval evalFn expression =
      "Invalid mathematical expression. Only basic operations are allowed.") ∨
  (∃ v, evalFn expression = .ok v ∧ safe_math_eval evalFn expression = v) ∨
  (∃ m, evalFn expression = .error m ∧
    safe_math_eval evalFn expression =
      "Error evaluating mathematical expression: " ++ m)

/-- The never-raises contract for `search_arxiv`. -/
def arxivNeverRaises (env : ArxivEnv) (q : String) : Prop :=
  (q = "" ∧ search_arxiv env q = "No query provided.") ∨
  (∃ s, arxivTryBody env q = .ok s ∧ search_arxiv env q = s) ∨
  (∃ m, arxivTryBody env q = .error m ∧
    search_arxiv env q = "Error searching ArXiv: " ++ m)

/-- The never-raises contract for `search_pubmed`. -/
def pubmedNeverRaises (env : PubMedEnv) (q : String) : Prop :=
  (q = "" ∧ search_pubmed env q = "No query provided.") ∨
  (∃ s, pubmedTryBody env q = .ok s ∧ search_pubmed env q = s) ∨
  (∃ m, pubmedTryBody env q = .error m ∧
    search_pubmed env q = "Error searching PubMed: " ++ m)

/-! ## Concrete environments used by witnesses -/

/-- Wikipedia capability whose every call raises a generic exception. -/
def wikiEnvFail : WikiEnv :=
  ⟨fun _ => .error (.other "boom"), fun _ => .error (.other "boom")⟩

/-- Wikipedia capability that finds one article with a short summary. -/
def wikiEnvDemo : WikiEnv :=
  ⟨fun _ => .ok ["Lean"], fun _ => .ok ⟨"A proof assistant."⟩⟩

/-- DuckDuckGo capability whose search raises. -/
def ddgEnvFail : DDGEnv := ⟨fun _ => .error "boom"⟩

/-- ArXiv capability whose fetch raises. -/
def arxivEnvFail : ArxivEnv := ⟨fun _ => .error "boom"⟩

/-- PubMed capability whose first request raises. -/
def pubmedEnvFail : PubMedEnv := ⟨fun _ => .error "boom", fun _ => .error "boom"⟩

/-- An evaluator capability that always raises. -/
def evalFnFail : String → Except String String := fun _ => .error "boom"

/-- A model capability that always reports ModelUnavailable. -/
def modelDown : String → Except String String := fun _ => .error "model backend unreachable"

/-! ## Helper lemmas -/

/-- Truncation bound for the Python slice: at most `n` characters remain. -/
theorem pySlice_length_le (s : String) (n : Nat) : (pySlice s n).length ≤ n := by
  show (s.data.take n).length ≤ n
  rw [List.length_take]
  exact Nat.min_le_left _ _

/-- A string occurs in itself followed by anything. -/
theorem containsSub_head (x b : String) : ContainsSub (x ++ b) x :=
  ⟨"", b, rfl⟩

/-- Substring containment is preserved by prepending. -/
theorem containsSub_cons (p : String) {s x : String} (h : ContainsSub s x) :
    ContainsSub (p ++ s) x := by
  obtain ⟨a, b, hab⟩ := h
  exact ⟨p ++ a, b, by rw [hab, String.append_assoc]⟩

/-- The never-raises contract holds for `safe_wikipedia_search`. -/
theorem wikiNeverRaises_holds (env : WikiEnv) (q : String) : wikiNeverRaises env q := by
  unfold wikiNeverRaises
  cases h : wikiTryBody env (normalizeQuery q) with
  | ok s => exact Or.inl ⟨s, rfl, by simp [safe_wikipedia_search, h]⟩
  | error e =>
      right
      unfold wikiDescriptive
      cases e with
      | disambiguation options =>
          cases options with
          | nil => exact Or.inl (by simp [safe_wikipedia_search, h])
          | cons o os =>
              cases hp : env.page o with
              | ok page =>
                  exact Or.inr (Or.inr (Or.inr
                    ⟨page.summary, by simp [safe_wikipedia_search, h, hp]⟩))
              | error e2 =>
                  exact Or.inl (by simp [safe_wikipedia_search, h, hp])
      | pageError => exact Or.inr (Or.inl (by simp [safe_wikipedia_search, h]))
      | other m =>
          exact Or.inr (Or.inr (Or.inl ⟨m, by simp [safe_wikipedia_search, h]⟩))

/-- The never-raises contract holds for `safe_duckduckgo_search`. -/
theorem ddgNeverRaises_holds (env : DDGEnv) (q : String) : ddgNeverRaises env q := by
  unfold ddgNeverRaises
  cases h : ddgTryBody env (normalizeQuery q) with
  | ok s => exact Or.inl ⟨s, rfl, by simp [safe_duckduckgo_search, h]⟩
  | error m => exact Or.inr ⟨m, rfl, by simp [safe_duckduckgo_search, h]⟩

/-- The never-raises contract holds for `safe_math_eval`. -/
theorem mathNeverRaises_holds (evalFn : String → Except String String)
    (expression : String) : mathNeverRaises evalFn expression := by
  unfold mathNeverRaises
  cases hw : allWhitelisted expression with
  | false => exact Or.inl ⟨rfl, by simp [safe_math_eval, hw]⟩
  | true =>
      cases hv : evalFn expression with
      | ok v => exact Or.inr (Or.inl ⟨v, rfl, by simp [safe_math_eval, hw, hv]⟩)
      | error m => exact Or.inr (Or.inr ⟨m, rfl, by simp [safe_math_eval, hw, hv]⟩)

/-- The never-raises contract holds for `search_arxiv`. -/
theorem arxivNeverRaises_holds (env : ArxivEnv) (q : String) : arxivNeverRaises env q := by
  unfold arxivNeverRaises
  by_cases hq : q = ""
  · exact Or.inl ⟨hq, by simp [search_arxiv, hq]⟩
  · cases h : arxivTryBody env q with
    | ok s => exact Or.inr (Or.inl ⟨s, rfl, by simp [search_arxiv, hq, h]⟩)
    | error m => exact Or.inr (Or.inr ⟨m, rfl, by simp [search_arxiv, hq, h]⟩)

/-- The never-raises contract holds for `search_pubmed`. -/
theorem pubmedNeverRaises_holds (env : PubMedEnv) (q : String) : pubmedNeverRaises env q := by
  unfold pubmedNeverRaises
  by_cases hq : q = ""
  · exact Or.inl ⟨hq, by simp [search_pubmed, hq]⟩
  · cases h : pubmedTryBody env q with
    | ok s => exact Or.inr (Or.inl ⟨s, rfl, by simp [search_pubmed, hq, h]⟩)
    | error m => exact Or.inr (Or.inr ⟨m, rfl, by simp [search_pubmed, hq, h]⟩)

/-- Model-call count of the loop: each iteration makes one call and the
budget-exhausted branch makes exactly one forced call. -/
theorem runAux_modelCalls_le (env : LoopEnv) :
    ∀ (n : Nat) (t : List String) (c : Nat),
      (AgentLoop.runAux env t n c).modelCalls ≤ c + n + 1 := by
  intro n
  induction n with
  | zero =>
      intro t c
      unfold AgentLoop.runAux
      cases hc : env.complete (t ++ ["Final Answer:"]) with
      | error e => simp
      | ok completion => cases hp : env.parse completion <;> simp [hp]
  | succ n ih =>
      intro t c
      unfold AgentLoop.runAux
      cases hc : env.complete t with
      | error e => simp
      | ok completion =>
          cases hp : env.parse completion with
          | finalAnswer t1 => simp [hp]
          | action nm inp =>
              simp only [hp]
              exact le_trans (ih _ _) (by omega)
          | parseError raw =>
              simp only [hp]
              exact le_trans (ih _ _) (by omega)

/-- Peeling helper for the label inside `actionLine`. -/
theorem containsSub_action_here (X : String) : ContainsSub (actionLine ++ X) "Action:" := by
  have hA : actionLine =
      "Action:" ++
        " use EXACTLY one of these tools: Wikipedia, DuckDuckGo, BasicMath, ArXiv, or PubMed" := by
    decide
  rw [hA, String.append_assoc]
  exact containsSub_head _ _

/-! ## Claims -/

/-- C1: for every tool in the registry (whose names are exactly Wikipedia,
DuckDuckGo, BasicMath, ArXiv, PubMed) and every input string, invoking the
tool is a total function into strings — no exception crosses the tool
boundary — and its output is exactly either the successful body result or
the descriptive string produced by the exception handler, which the loop can
feed back as an Observation. -/
theorem c1_tools_never_raise (wenv : WikiEnv) (denv : DDGEnv)
    (evalFn : String → Except String String) (aenv : ArxivEnv)
    (penv : PubMedEnv) (input : String) :
    tools.map Tool.name = ["Wikipedia", "DuckDuckGo", "BasicMath", "ArXiv", "PubMed"] ∧
    wikiNeverRaises wenv input ∧
    ddgNeverRaises denv input ∧
    mathNeverRaises evalFn input ∧
    arxivNeverRaises aenv input ∧
    pubmedNeverRaises penv input :=
  ⟨rfl, wikiNeverRaises_holds wenv input, ddgNeverRaises_holds denv input,
   mathNeverRaises_holds evalFn input, arxivNeverRaises_holds aenv input,
   pubmedNeverRaises_holds penv input⟩

/-- C2: a single run of the agent loop makes at most `max_iterations + 1`
Model calls, with `max_iterations = 3` as configured; the run always
terminates (the loop is a total function). -/
theorem c2_model_call_bound (env : LoopEnv) (question : String) :
    max_iterations = 3 ∧
    (AgentLoop.run env question).modelCalls ≤ max_iterations + 1 :=
  ⟨rfl, runAux_modelCalls_le env max_iterations _ 0⟩

/-- C3: an input to the math tool containing any character outside the
whitelist yields the fixed invalid-expression message, with the evaluator
never consulted (the result is the same for every evaluator capability);
an all-whitelisted input is handed to the evaluator, and an evaluation
failure is returned as the error message carrying its text. -/
theorem c3_math_whitelist (evalFn f g : String → Except String String)
    (expression : String) :
    ((∃ c ∈ expression.data, c ∉ allowed_chars) →
      safe_math_eval evalFn expression =
          "Invalid mathematical expression. Only basic operations are allowed." ∧
      safe_math_eval f expression = safe_math_eval g expression) ∧
    (allWhitelisted expression = true →
      (∃ v, evalFn expression = .ok v ∧ safe_math_eval evalFn expression = v) ∨
      (∃ m, evalFn expression = .error m ∧
        safe_math_eval evalFn expression =
          "Error evaluating mathematical expression: " ++ m)) := by
  constructor
  · intro hbad
    have hw : allWhitelisted expression = false := by
      cases hwb : allWhitelisted expression with
      | false => rfl
      | true =>
          exfalso
          obtain ⟨c, hc, hn⟩ := hbad
          have hall : ∀ x ∈ expression.data, x ∈ allowed_chars := by
            simpa [allWhitelisted] using hwb
          exact hn (hall c hc)
    exact ⟨by simp [safe_math_eval, hw], by simp [safe_math_eval, hw]⟩
  · intro hw
    cases hv : evalFn expression with
    | ok v => exact Or.inl ⟨v, rfl, by simp [safe_math_eval, hw, hv]⟩
    | error m => exact Or.inr ⟨m, rfl, by simp [safe_math_eval, hw, hv]⟩

/-- Witness for C3: concrete instances at the rejected input 2+a and the
accepted input 2+2 with the integer evaluator. -/
theorem c3_math_whitelist_witness :
    (safe_math_eval pyIntEval "2+a" =
        "Invalid mathematical expression. Only basic operations are allowed." ∧
      safe_math_eval pyIntEval "2+a" = safe_math_eval pyIntEval "2+a") ∧
    ((∃ v, pyIntEval "2+2" = .ok v ∧ safe_math_eval pyIntEval "2+2" = v) ∨
     (∃ m, pyIntEval "2+2" = .error m ∧
       safe_math_eval pyIntEval "2+2" =
         "Error evaluating mathematical expression: " ++ m)) :=
  ⟨(c3_math_whitelist pyIntEval pyIntEval pyIntEval "2+a").1
      ⟨'a', by decide, by decide⟩,
   (c3_math_whitelist pyIntEval pyIntEval pyIntEval "2+2").2 (by decide)⟩

/-- C4: invoking the BasicMath tool with the input 2+2 returns exactly the
string 4 (Python eval-then-str instantiated with the integer-arithmetic
model). -/
theorem c4_basicmath_two_plus_two : safe_math_eval pyIntEval "2+2" = "4" := by
  decide

/-- C5: whenever the underlying fetch-and-parse of the ArXiv tool raises,
`search_arxiv` returns the raised message prefixed by the ArXiv error label,
so the output starts with that label and the run can continue with it as an
Observation. -/
theorem c5_arxiv_error_observation (env : ArxivEnv) (query m : String)
    (hq : query ≠ "") (hf : arxivTryBody env query = .error m) :
    search_arxiv env query = "Error searching ArXiv: " ++ m ∧
    ∃ rest, search_arxiv env query = "Error searching ArXiv:" ++ rest := by
  have h1 : search_arxiv env query = "Error searching ArXiv: " ++ m := by
    simp [search_arxiv, hq, hf]
  have h2 : ("Error searching ArXiv: " : String) = "Error searching ArXiv:" ++ " " := by
    decide
  exact ⟨h1, " " ++ m, by rw [h1, h2, String.append_assoc]⟩

/-- Witness for C5: a fetch capability that raises with message boom. -/
theorem c5_arxiv_error_observation_witness :
    search_arxiv arxivEnvFail "x" = "Error searching ArXiv: " ++ "boom" ∧
    ∃ rest, search_arxiv arxivEnvFail "x" = "Error searching ArXiv:" ++ rest :=
  c5_arxiv_error_observation arxivEnvFail "x" "boom" (by decide) rfl

/-- C6: a POST to /search whose JSON body has no query field or an empty
query gets the error body No query provided with status 400, and the
agent's run is never invoked — the response is the same constant for every
run capability. -/
theorem c6_no_query_400 (runAgent : String → Except String String) :
    search (.ok none) runAgent = (.error "No query provided", 400) ∧
    search (.ok (some "")) runAgent = (.error "No query provided", 400) :=
  ⟨rfl, rfl⟩

/-- C7: any exception raised while handling a /search request — whether
reading the request body or running the agent (for instance an unreachable
model backend) — is caught, and the response is an error body holding
exactly the exception's message with status 500; no other payload. -/
theorem c7_handler_catches (getQuery : Except String (Option String))
    (runAgent : String → Except String String) (q m : String) :
    (getQuery = .error m → search getQuery runAgent = (.error m, 500)) ∧
    (q ≠ "" → runAgent q = .error m →
      search (.ok (some q)) runAgent = (.error m, 500)) := by
  constructor
  · intro h
    simp [search, h]
  · intro hq hr
    simp [search, hq, hr]

/-- Witness for C7: a raising body reader and an unreachable model. -/
theorem c7_handler_catches_witness :
    search (.error "boom") modelDown = (.error "boom", 500) ∧
    search (.ok (some "hi")) modelDown =
      (.error "model backend unreachable", 500) :=
  ⟨(c7_handler_catches (.error "boom") modelDown "hi" "boom").1 rfl,
   (c7_handler_catches (.ok (some "hi")) modelDown "hi"
      "model backend unreachable").2 (by decide) rfl⟩

/-- C8: the fixed prompt template contains each labeled protocol line —
Question:, Thought:, Action:, Action Input:, Observation:, Final Answer: —
and its Action line names exactly the five registered tools Wikipedia,
DuckDuckGo, BasicMath, ArXiv, PubMed as the allowed Action values. -/
theorem c8_prompt_wire_format :
    tools.map Tool.name = ["Wikipedia", "DuckDuckGo", "BasicMath", "ArXiv", "PubMed"] ∧
    ContainsSub CUSTOM_PROMPT "Question:" ∧
    ContainsSub CUSTOM_PROMPT "Thought:" ∧
    ContainsSub CUSTOM_PROMPT "Action:" ∧
    ContainsSub CUSTOM_PROMPT "Action Input:" ∧
    ContainsSub CUSTOM_PROMPT "Observation:" ∧
    ContainsSub CUSTOM_PROMPT "Final Answer:" ∧
    ContainsSub CUSTOM_PROMPT actionLine ∧
    actionLine =
      "Action: use EXACTLY one of these tools: Wikipedia, DuckDuckGo, BasicMath, ArXiv, or PubMed" := by
  refine ⟨rfl, ?_, ?_, ?_, ?_, ?_, ?_, ?_, rfl⟩
  all_goals unfold CUSTOM_PROMPT
  · exact containsSub_cons _ (containsSub_cons _ (containsSub_cons _
      (containsSub_head _ _)))
  · exact containsSub_cons _ (containsSub_cons _ (containsSub_cons _
      (containsSub_cons _ (containsSub_cons _ (containsSub_head _ _)))))
  · exact containsSub_cons _ (containsSub_cons _ (containsSub_cons _
      (containsSub_cons _ (containsSub_cons _ (containsSub_cons _
      (containsSub_cons _ (containsSub_action_here _)))))))
  · exact containsSub_cons _ (containsSub_cons _ (containsSub_cons _
      (containsSub_cons _ (containsSub_cons _ (containsSub_cons _
      (containsSub_cons _ (containsSub_cons _ (containsSub_cons _
      (containsSub_head _ _)))))))))
  · exact containsSub_cons _ (containsSub_cons _ (containsSub_cons _
      (containsSub_cons _ (containsSub_cons _ (containsSub_cons _
      (containsSub_cons _ (containsSub_cons _ (containsSub_cons _
      (containsSub_cons _ (containsSub_cons _ (containsSub_head _ _)))))))))))
  · exact containsSub_cons _ (containsSub_cons _ (containsSub_cons _
      (containsSub_cons _ (containsSub_cons _ (containsSub_cons _
      (containsSub_cons _ (containsSub_cons _ (containsSub_cons _
      (containsSub_cons _ (containsSub_cons _ (containsSub_cons _
      (containsSub_cons _ (containsSub_cons _
      (containsSub_head _ _))))))))))))))
  · exact containsSub_cons _ (containsSub_cons _ (containsSub_cons _
      (containsSub_cons _ (containsSub_cons _ (containsSub_cons _
      (containsSub_cons _ (containsSub_head _ _)))))))

/-- C9: on the empty query, `search_arxiv` and `search_pubmed` return exactly
No query provided. without consulting any network capability — the result is
the same for every environment. -/
theorem c9_empty_query_no_request (aenv aenv2 : ArxivEnv) (penv penv2 : PubMedEnv) :
    search_arxiv aenv "" = "No query provided." ∧
    search_pubmed penv "" = "No query provided." ∧
    search_arxiv aenv "" = search_arxiv aenv2 "" ∧
    search_pubmed penv "" = search_pubmed penv2 "" :=
  ⟨rfl, rfl, rfl, rfl⟩

/-- C10: on every successful Wikipedia lookup — direct, or through the first
disambiguation option — the output is `page.summary[0:500]`, hence at most
500 characters long. -/
theorem c10_wiki_summary_truncation (env : WikiEnv) (q : String) :
    (∀ t ts page, env.search (normalizeQuery q) = .ok (t :: ts) →
      env.page t = .ok page →
      safe_wikipedia_search env q = pySlice page.summary 500 ∧
      (safe_wikipedia_search env q).length ≤ 500) ∧
    (∀ o os page,
      wikiTryBody env (normalizeQuery q) = .error (.disambiguation (o :: os)) →
      env.page o = .ok page →
      safe_wikipedia_search env q = pySlice page.summary 500 ∧
      (safe_wikipedia_search env q).length ≤ 500) := by
  constructor
  · intro t ts page hs hp
    have hb : wikiTryBody env (normalizeQuery q) = .ok (pySlice page.summary 500) := by
      simp [wikiTryBody, hs, hp]
    have h1 : safe_wikipedia_search env q = pySlice page.summary 500 := by
      simp [safe_wikipedia_search, hb]
    exact ⟨h1, h1 ▸ pySlice_length_le _ _⟩
  · intro o os page hd hp
    have h1 : safe_wikipedia_search env q = pySlice page.summary 500 := by
      simp [safe_wikipedia_search, hd, hp]
    exact ⟨h1, h1 ▸ pySlice_length_le _ _⟩

/-- Witness for C10: a lookup that finds one page with a short summary. -/
theorem c10_wiki_summary_truncation_witness :
    safe_wikipedia_search wikiEnvDemo "Lean" = pySlice "A proof assistant." 500 ∧
    (safe_wikipedia_search wikiEnvDemo "Lean").length ≤ 500 :=
  (c10_wiki_summary_truncation wikiEnvDemo "Lean").1 "Lean" []
    ⟨"A proof assistant."⟩ rfl rfl

end ResearchAssistant
